import Mathlib

/-!
Verification of the topic-detection and code-mapping pipeline of
`server/python-tools/topic_detector.py`, together with the embedding
fallback of `server/python-tools/nlp_runner.py` (`embed_text`) and the
CLI input validation of `topic_detector.main`.

The embedder (sentence-transformers) and the clusterer (BERTopic) are
external collaborators; following the spec they are modelled as
parameters: the embedder as a function from the message list to a list
of vectors (of an arbitrary type `α`), the clusterer as the data the
pipeline reads off the fitted model: the per-message cluster ids
(`fit_transform`), the topic ids listed by `get_topic_info`, and the
ranked word list `get_topic` returns per topic id (the empty list
standing for the falsy `False`/empty answers).
-/

/-- Python's substring containment `pat in s`, on a string `s`:
true iff `pat` occurs as a contiguous substring of `s` (anywhere). -/
def strContains (s pat : String) : Bool :=
  (List.range (s.data.length + 1)).any (fun i => pat.data.isPrefixOf (s.data.drop i))

/-- Python's `str.lower()`: lowercase character by character (same
function as `String.toLower`, written over the character list so the
kernel can evaluate it). -/
def strToLower (s : String) : String :=
  ⟨s.data.map Char.toLower⟩

/-- The keyword dictionary `TOPIC_MAPPING` of `topic_detector.py`,
as an ordered list of (keyword, code) pairs: Python dicts iterate in
insertion order, so the fixed definition order below is the scan order. -/
def TOPIC_MAPPING : List (String × String) :=
  [ ("kailah", "KAILAH")
  , ("daughter", "KAILAH")
  , ("child", "KAILAH")
  , ("baby", "KAILAH")
  , ("parenting", "VISITS")
  , ("custody", "VISITS")
  , ("visitation", "VISITS")
  , ("visit", "VISITS")
  , ("call", "CALLS")
  , ("phone", "CALLS")
  , ("contact", "CALLS")
  , ("school", "SCHOOL")
  , ("education", "SCHOOL")
  , ("teacher", "SCHOOL")
  , ("money", "MONEY")
  , ("financial", "MONEY")
  , ("bills", "MONEY")
  , ("rent", "MONEY")
  , ("payment", "MONEY")
  , ("health", "HEALTH")
  , ("medical", "HEALTH")
  , ("doctor", "HEALTH")
  , ("hospital", "HEALTH")
  , ("medication", "HEALTH")
  , ("alcohol", "SUBST")
  , ("drug", "SUBST")
  , ("adderall", "SUBST")
  , ("substance", "SUBST")
  , ("drunk", "SUBST")
  , ("cheat", "INFID")
  , ("affair", "INFID")
  , ("infidelity", "INFID")
  , ("loyal", "INFID")
  , ("threat", "THREAT")
  , ("hurt", "THREAT")
  , ("kill", "THREAT")
  , ("harm", "THREAT") ]

/-- The closed set of topic codes of the reference mapping, plus the
fallback `GENRL` (spec section 3, "Topic Code"). -/
def TOPIC_CODES : List String :=
  ["KAILAH", "VISITS", "CALLS", "SCHOOL", "MONEY", "HEALTH", "SUBST", "INFID",
   "THREAT", "GENRL"]

/-- `TopicDetector._map_to_code`: lowercase the label, scan
`TOPIC_MAPPING` in definition order, return the code of the first
keyword occurring as a substring, else `"GENRL"`. -/
def map_to_code (label : String) : String :=
  match TOPIC_MAPPING.find? (fun kc => strContains (strToLower label) kc.1) with
  | some kc => kc.2
  | none => "GENRL"

/-- The data the pipeline reads from a fitted BERTopic model:
`topics` is the per-message cluster assignment of `fit_transform`,
`topicIds` the `Topic` column of `get_topic_info` (one row per topic,
the outlier row `-1` included), and `getTopic t` the ranked word list
of `get_topic(t)` with scores dropped (`[]` models both an empty list
and the falsy `False` answer for an unknown id). -/
structure Clusterer where
  topics : List Int
  topicIds : List Int
  getTopic : Int → List String

/-- The dictionary returned by `fit_and_detect` (`topic_labels` is the
Python dict as an insertion-ordered association list). -/
structure DetectResult (α : Type) where
  topics : List Int
  topic_labels : List (Int × String)
  topic_codes : List String
  embeddings : List α

/-- Python dict assignment `d[k] = v`: overwrite in place if the key
exists, else append (insertion order preserved). -/
def dictInsert (d : List (Int × String)) (k : Int) (v : String) : List (Int × String) :=
  if d.any (fun p => p.1 == k) then
    d.map (fun p => if p.1 == k then (k, v) else p)
  else
    d ++ [(k, v)]

/-- Python `d.get(k, dflt)`. -/
def dictGetD (d : List (Int × String)) (k : Int) (dflt : String) : String :=
  match d.find? (fun p => p.1 == k) with
  | some p => p.2
  | none => dflt

/-- One iteration of the `topic_labels` loop of `fit_and_detect`:
skip the outlier row, and for a topic with a truthy word list record
the top-3 words joined by `_`. -/
def labelStep (c : Clusterer) (acc : List (Int × String)) (topic_id : Int) :
    List (Int × String) :=
  if topic_id == -1 then acc
  else
    let topic_words := c.getTopic topic_id
    if topic_words.isEmpty then acc
    else dictInsert acc topic_id (String.intercalate "_" (topic_words.take 3))

/-- The `topic_labels` construction loop of `fit_and_detect`: iterate
the rows of `get_topic_info` in order, starting from the empty dict. -/
def buildLabels (c : Clusterer) : List (Int × String) :=
  c.topicIds.foldl (labelStep c) []

/-- The detector's mutable state (`self.is_fitted`). -/
structure DetectorState where
  is_fitted : Bool

/-- `TopicDetector.fit_and_detect`, state passed explicitly: the
embedder `embed` models `self.embedding_model.encode`, `fit` models
fitting `self.topic_model` on the messages. Returns the result dict
and the detector state after the call. -/
def fit_and_detectS {α : Type} (embed : List String → List α)
    (fit : List String → Clusterer) (st : DetectorState)
    (messages : List String) : DetectResult α × DetectorState :=
  if messages.length < 2 then
    ({ topics := List.replicate messages.length (-1)
     , topic_labels := []
     , topic_codes := List.replicate messages.length "GENRL"
     , embeddings := embed messages }, st)
  else
    let c := fit messages
    let topic_labels := buildLabels c
    let topic_codes := c.topics.map (fun topic_id =>
      if topic_id == -1 then "GENRL"
      else map_to_code (dictGetD topic_labels topic_id ""))
    ({ topics := c.topics
     , topic_labels := topic_labels
     , topic_codes := topic_codes
     , embeddings := embed messages }, { st with is_fitted := true })

/-- `fit_and_detect` as called on a fresh detector (result part). -/
def fit_and_detect {α : Type} (embed : List String → List α)
    (fit : List String → Clusterer) (messages : List String) : DetectResult α :=
  (fit_and_detectS embed fit ⟨false⟩ messages).1

/-! ### `embed_text` of `nlp_runner.py`

The sentence model is `none` when `get_sentence_model()` returns
`None` (the backend failed to import). Vector entries are modelled as
exact numbers (`Int`); the only concrete value the claims touch is
`0.0`, which is exact. -/

/-- The argument dict of `embed_text`: `none` models an absent key. -/
structure EmbedTextArgs where
  text : Option String
  texts : Option (List String)

/-- The result dict of `embed_text`. -/
structure EmbedTextResult where
  embeddings : List (List Int)
  model : String
  dimensions : Nat

/-- The `texts` list `embed_text` works on:
`text = args.get("text", "")`, then
`texts = args.get("texts", [text] if text else [])`. -/
def effectiveTexts (args : EmbedTextArgs) : List String :=
  let text := args.text.getD ""
  args.texts.getD (if text = "" then [] else [text])

/-- `nlp_runner.embed_text`: with no sentence model, one zero-vector
of length 384 per text, `model` marked `"unavailable"`, `dimensions`
384; with a model, its encodings (`shape[1]` read off the first row,
384 for an empty matrix). -/
def embed_text (model : Option (List String → List (List Int)))
    (args : EmbedTextArgs) : EmbedTextResult :=
  let texts := effectiveTexts args
  match model with
  | none =>
    { embeddings := texts.map (fun _ => List.replicate 384 (0 : Int))
    , model := "unavailable"
    , dimensions := 384 }
  | some encode =>
    let embeddings := encode texts
    { embeddings := embeddings
    , model := "all-MiniLM-L6-v2"
    , dimensions := match embeddings with
      | v :: _ => v.length
      | [] => 384 }

/-! ### CLI validation of `topic_detector.main` -/

/-- JSON values, as `json.loads` can produce them. -/
inductive Json where
  | null
  | bool (b : Bool)
  | num (n : Int)
  | str (s : String)
  | arr (xs : List Json)
  | obj (fields : List (String × Json))

/-- What `main` does before any model is touched: either print
`{"error": err}` and exit with the given status, or go on to
construct the `TopicDetector` and run the pipeline on the decoded
payload (the list elements, whatever JSON values they are). -/
inductive MainOutcome where
  | errorExit (err : String) (code : Nat)
  | run (messages : List Json)

/-- True exactly on the error branch of a `MainOutcome`. -/
def MainOutcome.isError : MainOutcome → Bool
  | .errorExit _ _ => true
  | .run _ => false

/-- The validation `main` applies to the decoded first argument
(`json.loads(sys.argv[1])` modelled as an `Except`: `.error e` is a
`JSONDecodeError` with message `e`): a decode error or a non-list
payload aborts with an error object and exit status 1; any list — its
elements unchecked — proceeds to the detector. -/
def validate_payload : Except String Json → MainOutcome
  | .error e => .errorExit ("Invalid JSON: " ++ e) 1
  | .ok (.arr xs) => .run xs
  | .ok _ => .errorExit "Messages must be a list" 1

/-- `topic_detector.main`: `argv` is `sys.argv[1:]`, `parse` is
`json.loads`. With no positional argument it aborts before parsing;
otherwise the first argument is decoded and validated. -/
def main_outcome (argv : List String) (parse : String → Except String Json) :
    MainOutcome :=
  match argv with
  | [] => .errorExit "No messages provided" 1
  | arg :: _ => validate_payload (parse arg)

/-! ## Helper lemmas -/

/-- `find?` returns the element at the first index satisfying the
predicate. -/
theorem find?_first {α : Type} (p : α → Bool) :
    ∀ (l : List α) (i : Nat) (hi : i < l.length), p (l.get ⟨i, hi⟩) = true →
      (∀ j (hj : j < l.length), j < i → p (l.get ⟨j, hj⟩) = false) →
      l.find? p = some (l.get ⟨i, hi⟩) := by
  intro l
  induction l with
  | nil => intro i hi; exact absurd hi (Nat.not_lt_zero i)
  | cons a l ih =>
    intro i hi hp hmin
    cases i with
    | zero =>
      simp only [List.get] at hp
      simp [List.find?, hp]
    | succ i =>
      have ha : p a = false := hmin 0 (Nat.succ_pos _) (Nat.succ_pos i)
      simp only [List.get] at hp ⊢
      rw [List.find?_cons_of_neg _ (by simp [ha])]
      exact ih i (Nat.lt_of_succ_lt_succ hi) hp
        (fun j hj hji => hmin (j + 1) (Nat.succ_lt_succ hj) (Nat.succ_lt_succ hji))

/-- Every code in the keyword dictionary — and the fallback — lies in
the closed topic-code set. -/
theorem map_to_code_mem (label : String) : map_to_code label ∈ TOPIC_CODES := by
  unfold map_to_code
  cases hf : TOPIC_MAPPING.find? (fun kc => strContains (strToLower label) kc.1) with
  | none => decide
  | some kc =>
    have hmem := List.mem_of_find?_eq_some hf
    have hall : ∀ p ∈ TOPIC_MAPPING, p.2 ∈ TOPIC_CODES := by decide
    exact hall kc hmem

/-- The empty label matches no keyword. -/
theorem map_to_code_empty : map_to_code "" = "GENRL" := by decide

/-! ## Claims -/

/-- C1: `_map_to_code` lowercases the label, scans `TOPIC_MAPPING` in
its fixed definition order and returns the code paired with the first
keyword occurring as a substring of the lowercased label; with no
match it returns `"GENRL"`; matching is substring-anywhere, e.g.
`"call"` matches inside `"recall"`. (Purity and determinism are
inherent: `map_to_code` is a function of the label alone.) -/
theorem map_to_code_spec :
    (∀ label : String,
      (∀ (i : Nat) (hi : i < TOPIC_MAPPING.length),
        strContains (strToLower label) (TOPIC_MAPPING.get ⟨i, hi⟩).1 = true →
        (∀ (j : Nat) (hj : j < TOPIC_MAPPING.length), j < i →
          strContains (strToLower label) (TOPIC_MAPPING.get ⟨j, hj⟩).1 = false) →
        map_to_code label = (TOPIC_MAPPING.get ⟨i, hi⟩).2) ∧
      ((∀ kc ∈ TOPIC_MAPPING, strContains (strToLower label) kc.1 = false) →
        map_to_code label = "GENRL")) ∧
    map_to_code "recall" = "CALLS" := by
  refine ⟨fun label => ⟨?_, ?_⟩, by decide⟩
  · intro i hi hp hmin
    unfold map_to_code
    rw [find?_first (fun kc => strContains (strToLower label) kc.1)
      TOPIC_MAPPING i hi hp hmin]
  · intro h
    unfold map_to_code
    rw [List.find?_eq_none.mpr (fun kc hkc => by simp [h kc hkc])]

/-- C1 witness: the first-match branch at the label
`"school_teacher_bills"` (first matching keyword: `"school"`, index
11) and the fallback branch at `"zzz"`. -/
theorem map_to_code_spec_witness :
    map_to_code "school_teacher_bills" = "SCHOOL" ∧ map_to_code "zzz" = "GENRL" := by
  constructor
  · have h := (map_to_code_spec.1 "school_teacher_bills").1 11 (by decide)
      (by decide) (by decide)
    rw [h]; rfl
  · exact (map_to_code_spec.1 "zzz").2 (by decide)

/-- The small-batch branch of `fit_and_detect` (fewer than 2
messages), as a record equation. -/
theorem fit_and_detect_small_eq {α : Type} (embed : List String → List α)
    (fit : List String → Clusterer) (messages : List String)
    (h : messages.length < 2) :
    fit_and_detect embed fit messages =
      { topics := List.replicate messages.length (-1)
      , topic_labels := []
      , topic_codes := List.replicate messages.length "GENRL"
      , embeddings := embed messages } := by
  unfold fit_and_detect fit_and_detectS
  rw [if_pos h]

/-- The clustering branch of `fit_and_detect` (at least 2 messages),
as a record equation. -/
theorem fit_and_detect_cluster_eq {α : Type} (embed : List String → List α)
    (fit : List String → Clusterer) (messages : List String)
    (h : ¬ messages.length < 2) :
    fit_and_detect embed fit messages =
      { topics := (fit messages).topics
      , topic_labels := buildLabels (fit messages)
      , topic_codes := (fit messages).topics.map (fun topic_id =>
          if topic_id == -1 then "GENRL"
          else map_to_code (dictGetD (buildLabels (fit messages)) topic_id ""))
      , embeddings := embed messages } := by
  unfold fit_and_detect fit_and_detectS
  rw [if_neg h]

/-- C2: on 0 or 1 messages `fit_and_detect` skips clustering:
`topics` is all `-1`, `topic_labels` empty, `topic_codes` all
`"GENRL"`, and `embeddings` is the embedder's output on the messages —
one vector per message whenever the embedder honours its contract. -/
theorem fit_and_detect_small {α : Type} (embed : List String → List α)
    (fit : List String → Clusterer) (messages : List String)
    (h : messages.length < 2) :
    fit_and_detect embed fit messages =
      { topics := List.replicate messages.length (-1)
      , topic_labels := []
      , topic_codes := List.replicate messages.length "GENRL"
      , embeddings := embed messages } ∧
    ((embed messages).length = messages.length →
      (fit_and_detect embed fit messages).embeddings.length = messages.length) := by
  have he := fit_and_detect_small_eq embed fit messages h
  exact ⟨he, fun hc => by rw [he]; exact hc⟩

/-- C2 witness: the singleton input `["hi"]`, the embedder mapping
each message to the one-entry vector of its length. -/
theorem fit_and_detect_small_witness :
    fit_and_detect (fun ms => ms.map (fun s => [(s.length : Int)]))
        (fun _ => ⟨[], [], fun _ => []⟩) ["hi"] =
      { topics := [-1], topic_labels := [], topic_codes := ["GENRL"]
      , embeddings := [[2]] } := by
  have h := fit_and_detect_small (fun ms => ms.map (fun s => [(s.length : Int)]))
    (fun _ => ⟨[], [], fun _ => []⟩) ["hi"] (by decide)
  rw [h.1]
  rfl

/-- The end-to-end scenario input of spec section 8, property 6. -/
def scenarioMessages : List String :=
  ["I saw my daughter yesterday", "School call about Kailah", "Rent payment due", "x"]

/-- The scenario's clusterer: messages 0-1 in cluster 0 (top terms
kailah, school, daughter), message 2 in cluster 1 (top terms rent,
payment), message 3 an outlier. `get_topic_info` lists the outlier
row first, as BERTopic does. -/
def scenarioClusterer : Clusterer where
  topics := [0, 0, 1, -1]
  topicIds := [-1, 0, 1]
  getTopic := fun t =>
    if t == 0 then ["kailah", "school", "daughter"]
    else if t == 1 then ["rent", "payment"]
    else []

/-- A deterministic embedder for concrete runs: each message becomes
the one-entry vector of its length. -/
def scenarioEmbed (ms : List String) : List (List Int) :=
  ms.map (fun s => [(s.length : Int)])

/-- C3: on the four-message scenario input with the given clusterer,
`fit_and_detect` returns `topics = [0,0,1,-1]`, the labels
`0 ↦ "kailah_school_daughter"` and `1 ↦ "rent_payment"` (each
cluster's top-3 terms, fewer if fewer exist, joined by `_` in ranked
order), and `topic_codes = ["KAILAH","KAILAH","MONEY","GENRL"]`. -/
theorem fit_and_detect_scenario :
    fit_and_detect scenarioEmbed (fun _ => scenarioClusterer) scenarioMessages =
      { topics := [0, 0, 1, -1]
      , topic_labels := [(0, "kailah_school_daughter"), (1, "rent_payment")]
      , topic_codes := ["KAILAH", "KAILAH", "MONEY", "GENRL"]
      , embeddings := [[27], [24], [16], [1]] } := by
  rfl

/-- C4: whenever the clusterer assigns one cluster id per message,
`topics` and `topic_codes` have exactly one entry per message, and
every topic code lies in the closed code set. -/
theorem fit_and_detect_invariants {α : Type} (embed : List String → List α)
    (fit : List String → Clusterer) (messages : List String)
    (hfit : (fit messages).topics.length = messages.length) :
    (fit_and_detect embed fit messages).topics.length = messages.length ∧
    (fit_and_detect embed fit messages).topic_codes.length = messages.length ∧
    ∀ code ∈ (fit_and_detect embed fit messages).topic_codes, code ∈ TOPIC_CODES := by
  by_cases h : messages.length < 2
  · rw [fit_and_detect_small_eq embed fit messages h]
    refine ⟨List.length_replicate .., List.length_replicate .., ?_⟩
    intro code hcode
    rw [List.eq_of_mem_replicate hcode]
    decide
  · rw [fit_and_detect_cluster_eq embed fit messages h]
    refine ⟨hfit, by rw [List.length_map]; exact hfit, ?_⟩
    intro code hcode
    obtain ⟨topic_id, _, hc⟩ := List.mem_map.mp hcode
    rw [← hc]
    by_cases ho : topic_id == -1
    · rw [if_pos ho]; decide
    · rw [if_neg ho]
      exact map_to_code_mem _

/-- C4 witness: two messages, the clusterer putting the first in
cluster 0 and the second among the outliers. -/
theorem fit_and_detect_invariants_witness :
    (fit_and_detect (fun ms => ms.map (fun s => [(s.length : Int)]))
        (fun _ => ⟨[0, -1], [0], fun _ => ["call"]⟩) ["a", "b"]).topics.length = 2 ∧
    (fit_and_detect (fun ms => ms.map (fun s => [(s.length : Int)]))
        (fun _ => ⟨[0, -1], [0], fun _ => ["call"]⟩) ["a", "b"]).topic_codes.length = 2 ∧
    ∀ code ∈ (fit_and_detect (fun ms => ms.map (fun s => [(s.length : Int)]))
        (fun _ => ⟨[0, -1], [0], fun _ => ["call"]⟩) ["a", "b"]).topic_codes,
      code ∈ TOPIC_CODES :=
  fit_and_detect_invariants (fun ms => ms.map (fun s => [(s.length : Int)]))
    (fun _ => ⟨[0, -1], [0], fun _ => ["call"]⟩) ["a", "b"] (by decide)

/-- C5: a message assigned the outlier marker `-1` always gets topic
code `"GENRL"`, in both branches of the pipeline. -/
theorem outlier_code_GENRL {α : Type} (embed : List String → List α)
    (fit : List String → Clusterer) (messages : List String) (i : Nat)
    (h : (fit_and_detect embed fit messages).topics[i]? = some (-1)) :
    (fit_and_detect embed fit messages).topic_codes[i]? = some "GENRL" := by
  by_cases hlen : messages.length < 2
  · rw [fit_and_detect_small_eq embed fit messages hlen] at h ⊢
    rw [List.getElem?_replicate] at h ⊢
    by_cases hi : i < messages.length
    · rw [if_pos hi]
    · rw [if_neg hi] at h
      exact absurd h (Option.noConfusion)
  · rw [fit_and_detect_cluster_eq embed fit messages hlen] at h ⊢
    rw [List.getElem?_map, h]
    rfl

/-- C5 witness: two messages, the second an outlier. -/
theorem outlier_code_GENRL_witness :
    (fit_and_detect (fun ms => ms.map (fun s => [(s.length : Int)]))
        (fun _ => ⟨[0, -1], [0], fun _ => ["call"]⟩) ["a", "b"]).topic_codes[1]? =
      some "GENRL" :=
  outlier_code_GENRL (fun ms => ms.map (fun s => [(s.length : Int)]))
    (fun _ => ⟨[0, -1], [0], fun _ => ["call"]⟩) ["a", "b"] 1 (by rfl)

/-- C8: running `fit_and_detect` a second time on the same messages,
starting from the state the first call left behind, yields the same
result — the output depends only on the messages and the (pure,
deterministic) embedder and clusterer, never on `is_fitted`. -/
theorem fit_and_detect_idempotent {α : Type} (embed : List String → List α)
    (fit : List String → Clusterer) (st : DetectorState) (messages : List String) :
    (fit_and_detectS embed fit
        (fit_and_detectS embed fit st messages).2 messages).1 =
      (fit_and_detectS embed fit st messages).1 := by
  unfold fit_and_detectS
  by_cases h : messages.length < 2 <;> simp [h]

/-- Membership in a dict after an assignment: the new pair's key, or
a pair already present. -/
theorem mem_dictInsert {d : List (Int × String)} {k : Int} {v : String}
    {p : Int × String} (hp : p ∈ dictInsert d k v) : p.1 = k ∨ p ∈ d := by
  unfold dictInsert at hp
  by_cases hd : d.any (fun q => q.1 == k)
  · rw [if_pos hd] at hp
    obtain ⟨q, hq, hpq⟩ := List.mem_map.mp hp
    by_cases hqk : q.1 == k
    · rw [if_pos hqk] at hpq
      left; rw [← hpq]
    · rw [if_neg hqk] at hpq
      right; rw [← hpq]; exact hq
  · rw [if_neg hd] at hp
    rcases List.mem_append.mp hp with hm | hm
    · right; exact hm
    · left; rw [List.mem_singleton.mp hm]

/-- Every key the label loop records is a non-outlier topic with a
nonempty word list. -/
theorem labelStep_inv (c : Clusterer) (acc : List (Int × String)) (tid : Int)
    (hacc : ∀ p ∈ acc, p.1 ≠ -1 ∧ c.getTopic p.1 ≠ []) :
    ∀ p ∈ labelStep c acc tid, p.1 ≠ -1 ∧ c.getTopic p.1 ≠ [] := by
  intro p hp
  unfold labelStep at hp
  by_cases h1 : tid == -1
  · rw [if_pos h1] at hp; exact hacc p hp
  · rw [if_neg h1] at hp
    by_cases h2 : (c.getTopic tid).isEmpty
    · rw [if_pos h2] at hp; exact hacc p hp
    · rw [if_neg h2] at hp
      rcases mem_dictInsert hp with hk | hm
      · refine ⟨?_, ?_⟩
        · rw [hk]; intro hc; exact h1 (by rw [hc]; rfl)
        · rw [hk]; intro he; exact h2 (by rw [he]; rfl)
      · exact hacc p hm

/-- The label-loop invariant, over the whole fold. -/
theorem foldl_labelStep_inv (c : Clusterer) :
    ∀ (ids : List Int) (acc : List (Int × String)),
      (∀ p ∈ acc, p.1 ≠ -1 ∧ c.getTopic p.1 ≠ []) →
      ∀ p ∈ ids.foldl (labelStep c) acc, p.1 ≠ -1 ∧ c.getTopic p.1 ≠ [] := by
  intro ids
  induction ids with
  | nil => intro acc hacc; simpa using hacc
  | cons t ts ih =>
    intro acc hacc
    exact ih (labelStep c acc t) (labelStep_inv c acc t hacc)

/-- A key absent from a dict looks up to the default. -/
theorem dictGetD_eq_default {d : List (Int × String)} {k : Int}
    (h : ∀ p ∈ d, p.1 ≠ k) (dflt : String) : dictGetD d k dflt = dflt := by
  unfold dictGetD
  rw [List.find?_eq_none.mpr (fun p hp => by simp [h p hp])]

/-- C9: a non-outlier cluster whose word list comes back empty (or
falsy) gets no entry in `topic_labels`, and every message assigned to
it falls back to the empty label and hence to code `"GENRL"`. -/
theorem empty_terms_GENRL {α : Type} (embed : List String → List α)
    (fit : List String → Clusterer) (messages : List String) (tid : Int) (i : Nat)
    (hlen : 2 ≤ messages.length) (htid : tid ≠ -1)
    (hempty : (fit messages).getTopic tid = []) :
    (∀ p ∈ (fit_and_detect embed fit messages).topic_labels, p.1 ≠ tid) ∧
    ((fit_and_detect embed fit messages).topics[i]? = some tid →
      (fit_and_detect embed fit messages).topic_codes[i]? = some "GENRL") := by
  have hnl : ¬ messages.length < 2 := Nat.not_lt.mpr hlen
  rw [fit_and_detect_cluster_eq embed fit messages hnl]
  have hkeys : ∀ p ∈ buildLabels (fit messages), p.1 ≠ tid := by
    intro p hp hptid
    have := foldl_labelStep_inv (fit messages) (fit messages).topicIds []
      (by intro p hp; exact absurd hp (List.not_mem_nil p)) p hp
    exact this.2 (by rw [hptid]; exact hempty)
  refine ⟨hkeys, ?_⟩
  intro hi
  rw [List.getElem?_map, hi, Option.map_some']
  rw [if_neg (by simpa using htid), dictGetD_eq_default hkeys, map_to_code_empty]

/-- C9 witness: two messages both in cluster 0, whose word list is
empty; its message 0 gets code `"GENRL"`. -/
theorem empty_terms_GENRL_witness :
    (fit_and_detect (fun ms => ms.map (fun s => [(s.length : Int)]))
        (fun _ => ⟨[0, 0], [0], fun _ => []⟩) ["a", "b"]).topic_codes[0]? =
      some "GENRL" :=
  (empty_terms_GENRL (fun ms => ms.map (fun s => [(s.length : Int)]))
    (fun _ => ⟨[0, 0], [0], fun _ => []⟩) ["a", "b"] 0 0
    (by decide) (by decide) rfl).2 rfl

/-- C7: when the embedding backend cannot be loaded (`model = none`),
`embed_text` still answers: `model` is marked `"unavailable"`,
`dimensions` is the fixed 384, and the embeddings are one zero-vector
of length 384 per input text. -/
theorem embed_text_unavailable (args : EmbedTextArgs) :
    (embed_text none args).model = "unavailable" ∧
    (embed_text none args).dimensions = 384 ∧
    (embed_text none args).embeddings.length = (effectiveTexts args).length ∧
    ∀ v ∈ (embed_text none args).embeddings, v = List.replicate 384 (0 : Int) := by
  refine ⟨rfl, rfl, List.length_map .., ?_⟩
  intro v hv
  obtain ⟨t, _, hvt⟩ := List.mem_map.mp hv
  exact hvt.symm

/-- C7 witness: a single text `"hi"` passed through the `text` field. -/
theorem embed_text_unavailable_witness :
    (embed_text none ⟨some "hi", none⟩).model = "unavailable" ∧
    (embed_text none ⟨some "hi", none⟩).dimensions = 384 ∧
    (embed_text none ⟨some "hi", none⟩).embeddings.length = 1 :=
  ⟨(embed_text_unavailable ⟨some "hi", none⟩).1,
   (embed_text_unavailable ⟨some "hi", none⟩).2.1,
   (embed_text_unavailable ⟨some "hi", none⟩).2.2.1⟩

/-- `json.loads` at the single command-line input `"[1,2]"`: a JSON
array of two numbers — a list, but not a list of strings. -/
def jsonLoadsNums : String → Except String Json :=
  fun s => if s = "[1,2]" then .ok (.arr [.num 1, .num 2]) else .error "Expecting value"

/-- C6 counterexample: the argument `"[1,2]"` decodes to a list whose
elements are not strings, yet `main` emits no error object and does
not exit: validation only checks `isinstance(messages, list)`, so the
call proceeds to construct the detector and invoke the adapters on the
non-string payload. -/
theorem main_nonstring_list_accepted :
    main_outcome ["[1,2]"] jsonLoadsNums = .run [Json.num 1, Json.num 2] ∧
    (main_outcome ["[1,2]"] jsonLoadsNums).isError = false :=
  ⟨rfl, rfl⟩

/-- C6 (amended): an argument that is malformed JSON, or decodes to a
non-list value, makes `main` print a JSON object with an `error` field
and exit with status 1, before the detector or any adapter is touched;
but a payload that is a list passes validation whatever its elements
are — element types are never checked. -/
theorem main_invalid_input :
    (∀ (parse : String → Except String Json) (arg : String) (rest : List String)
        (e : String), parse arg = .error e →
      main_outcome (arg :: rest) parse = .errorExit ("Invalid JSON: " ++ e) 1) ∧
    (∀ (parse : String → Except String Json) (arg : String) (rest : List String)
        (v : Json), parse arg = .ok v → (∀ xs, v ≠ .arr xs) →
      main_outcome (arg :: rest) parse = .errorExit "Messages must be a list" 1) ∧
    (∀ (parse : String → Except String Json) (arg : String) (rest : List String)
        (xs : List Json), parse arg = .ok (.arr xs) →
      main_outcome (arg :: rest) parse = .run xs) := by
  refine ⟨?_, ?_, ?_⟩
  · intro parse arg rest e he
    show validate_payload (parse arg) = _
    rw [he]
    rfl
  · intro parse arg rest v hv hnl
    show validate_payload (parse arg) = _
    rw [hv]
    cases v with
    | arr xs => exact absurd rfl (hnl xs)
    | null => rfl
    | bool b => rfl
    | num n => rfl
    | str s => rfl
    | obj fields => rfl
  · intro parse arg rest xs hx

    show validate_payload (parse arg) = _
    rw [hx]
    rfl

/-- C6 witness: the decode-error branch and the non-list branch, at
the concrete payloads `"boom"` (malformed) and the number `3`. -/
theorem main_invalid_input_witness :
    main_outcome ["3"] (fun _ => .ok (.num 3)) =
      .errorExit "Messages must be a list" 1 ∧
    main_outcome ["nope"] (fun _ => .error "boom") =
      .errorExit ("Invalid JSON: " ++ "boom") 1 :=
  ⟨main_invalid_input.2.1 (fun _ => .ok (.num 3)) "3" [] (.num 3) rfl
      (fun xs h => Json.noConfusion h),
   main_invalid_input.1 (fun _ => .error "boom") "nope" [] "boom" rfl⟩

/-- C10: invoked with no positional argument, `main` prints
`{"error": "No messages provided"}` and exits with status 1; the
outcome is the same for every parse function — nothing is parsed — and
the error branch never reaches the detector construction. -/
theorem main_no_args (parse : String → Except String Json) :
    main_outcome [] parse = .errorExit "No messages provided" 1 ∧
    (main_outcome [] parse).isError = true :=
  ⟨rfl, rfl⟩
